import Mathlib

/-!
Shallow embedding of the `udpconn` client endpoint (`src/client/UdpConn.cpp`,
the current implementation variant) and proofs about its protocol state
machine.

Modelling conventions:
- machine integers are `Nat` (uint8/uint16/uint64) or `Int` (C `int`), with
  explicit `% 256` / `% 2^64` where the C code relies on unsigned wraparound;
- the mutable `UdpConn` object is the `ConnState` record, threaded explicitly;
- socket emissions (`sock.send` of header-only packets) and condition-variable
  notifications are collected in an `Effects` record;
- blocking waits (`CondVar::waitFor`) are modelled by explicit observation
  traces (`WaitObs`) supplied to the function, one entry per loop iteration;
- byte buffers are `List Nat`.
-/

namespace UdpConn

/-- Flag constants from `UdpConn.h` (`FLAG_DATA` .. `FLAG_RST`). -/
def FLAG_DATA : Nat := 1

/-- ACK flag bit. -/
def FLAG_ACK : Nat := 2

/-- SYN flag bit. -/
def FLAG_SYN : Nat := 4

/-- SYNACK flag bit. -/
def FLAG_SYNACK : Nat := 8

/-- RST flag bit. -/
def FLAG_RST : Nat := 16

/-- Modelled from the spec: `FLAG_PING = 32`. The header declaring the PING
flag for the current `UdpConn.cpp` variant is not under `src/`; the spec's
flag table (`DATA=1, ACK=2, SYN=4, SYNACK=8, RST=16, PING=32`) supplies the
value. -/
def FLAG_PING : Nat := 32

/-- Modelled from the spec: `MAX_PACKET_SIZE = 1200` bytes. The constant is
declared in the missing header of the current variant; the spec fixes it at
1200, matching the `uint8_t outBuf[1200]` / `inBuf[1200]` declarations. -/
def MAX_PACKET_SIZE : Nat := 1200

/-- Modelled from the spec: `PING_INTERVAL = 1000` ms (missing header). -/
def PING_INTERVAL : Nat := 1000

/-- `TIME_WAIT_FOR_ACK = 200` ms from `UdpConn.h`. -/
def TIME_WAIT_FOR_ACK : Nat := 200

/-- `sizeof(Header)`: 4 bytes, packed (`uint16_t sessId; uint8_t id; uint8_t
flags`). -/
def headerSize : Nat := 4

/-- Unsigned 8-bit subtraction `a - b` as in `uint8_t diff = header->id -
lastReceivedId;`. -/
def cSub8 (a b : Nat) : Nat := (a % 256 + (256 - b % 256)) % 256

/-- Unsigned 64-bit subtraction `a - b` as in `OS::getTime() -
lastPingSendTime`. -/
def cSub64 (a b : Nat) : Nat := (a % 2 ^ 64 + (2 ^ 64 - b % 2 ^ 64)) % 2 ^ 64

/-- The wire header `struct Header` (4 bytes, packed). -/
structure Header where
  sessId : Nat
  id : Nat
  flags : Nat
deriving Repr, DecidableEq

/-- Test `header->flags & f` as a Bool. -/
def hasFlag (h : Header) (f : Nat) : Bool := h.flags.land f != 0

/-- The mutable fields of the `UdpConn` object that the claims concern.
`isInBufEmpty`/`isInBufReceived` encode the receive-slot state:
Empty = (true, true), Pending = (false, false), Delivered = (false, true). -/
structure ConnState where
  sessId : Nat
  lastSendId : Nat
  lastSendAcked : Nat
  lastReceivedId : Nat
  lastPacketRecvTime : Nat
  lastPingSendTime : Nat
  isInBufEmpty : Bool
  isInBufReceived : Bool
  dataBufLen : Int
  outBuf : List Nat
deriving Repr, DecidableEq

/-- The receive slot is free for a new deposit: `isInBufEmpty &&
isInBufReceived` (the guard in `UdpConn::run`). -/
def slotFree (s : ConnState) : Bool := s.isInBufEmpty && s.isInBufReceived

/-- Side effects of a worker-side operation: the resulting state, the
header-only packets emitted via `sock.send`, and how many times each
condition variable was notified. -/
structure Effects where
  state : ConnState
  sent : List Header
  recvNotifs : Nat
  sendNotifs : Nat
deriving Repr, DecidableEq

/-- `UdpConn::_closeInternal`: under the access lock, if `sessId != 0`, set
`sessId = 0` and notify `recvCondVar` and `sendCondVar`. Returns the new
state and the two notification counts (recv, send). -/
def closeInternal (s : ConnState) : ConnState × Nat × Nat :=
  if s.sessId ≠ 0 then ({ s with sessId := 0 }, 1, 1) else (s, 0, 0)

/-- `UdpConn::close`: a wrapper that calls `_closeInternal`. -/
def close (s : ConnState) : ConnState × Nat × Nat := closeInternal s

/-- The ACK header built by `UdpConn::_sendAck` from the current state:
`{sessId, id = lastReceivedId, flags = FLAG_ACK}`. -/
def ackHeader (s : ConnState) : Header :=
  ⟨s.sessId, s.lastReceivedId, FLAG_ACK⟩

/-- The PING emission of `UdpConn::_sendPing`: returns early when
`sessId == 0`, otherwise sends `{sessId, id = 0, flags = FLAG_PING}`. -/
def sendPing (s : ConnState) : List Header :=
  if s.sessId = 0 then [] else [⟨s.sessId, 0, FLAG_PING⟩]

/-- `UdpConn::processPacket(header, payloadLen)` at time `now`
(`OS::getTime()`), translated branch by branch from `UdpConn.cpp`:
RST → `_closeInternal`; SYNACK → adopt session; drop if `sessId == 0`;
`_closeInternal` on sessId mismatch; then the PING, DATA and ACK flag
handlers in source order. -/
def processPacket (s : ConnState) (h : Header) (payloadLen : Int) (now : Nat) :
    Effects :=
  if hasFlag h FLAG_RST then
    let c := closeInternal s
    ⟨c.1, [], c.2.1, c.2.2⟩
  else if hasFlag h FLAG_SYNACK then
    ⟨{ s with
        sessId := h.sessId,
        lastReceivedId := h.id,
        lastPacketRecvTime := now,
        lastPingSendTime := now }, [], 0, 1⟩
  else if s.sessId = 0 then ⟨s, [], 0, 0⟩
  else if h.sessId ≠ s.sessId then
    let c := closeInternal s
    ⟨c.1, [], c.2.1, c.2.2⟩
  else
    let s1 := if hasFlag h FLAG_PING then { s with lastPacketRecvTime := now }
              else s
    let e2 :=
      if hasFlag h FLAG_DATA then
        let diff := cSub8 h.id s1.lastReceivedId
        let acc := decide (diff = 1) && decide (payloadLen > 0)
        let s2 := if acc then
                    { s1 with
                        lastReceivedId := h.id,
                        dataBufLen := payloadLen,
                        isInBufEmpty := false,
                        isInBufReceived := false }
                  else s1
        let s3 := { s2 with lastPacketRecvTime := now }
        (⟨s3, [ackHeader s3], if acc then 1 else 0, 0⟩ : Effects)
      else ⟨s1, [], 0, 0⟩
    if hasFlag h FLAG_ACK then
      ⟨{ e2.state with lastSendAcked := h.id, lastPacketRecvTime := now },
        e2.sent, e2.recvNotifs, e2.sendNotifs + 1⟩
    else e2

/-- What `UdpConn::run` did with one inbound datagram: either it invoked
`processPacket` with the given payload length, or it drained one byte and
discarded the datagram without any processing. -/
inductive RunAction where
  | processed (payloadLen : Int)
  | discarded
deriving Repr, DecidableEq

/-- One iteration of the datagram branch of `UdpConn::run` (`availRes == 1`),
for a datagram of `totalLen` bytes whose header prefix parses as `h`:
if `sock.available() == sizeof(Header)` the header is read onto the stack and
processed; otherwise, if the receive slot is free, up to `sizeof(inBuf)`
bytes are read into `inBuf` and processed with payload `r - sizeof(Header)`;
otherwise a single byte is drained and the datagram is dropped. -/
def runStep (s : ConnState) (h : Header) (totalLen : Nat) (now : Nat) :
    Effects × RunAction :=
  if totalLen = headerSize then
    (processPacket s h 0 now, .processed 0)
  else if s.isInBufEmpty && s.isInBufReceived then
    let r := min totalLen MAX_PACKET_SIZE
    if 0 < r ∧ r ≤ MAX_PACKET_SIZE then
      (processPacket s h ((r : Int) - (headerSize : Int)) now,
        .processed ((r : Int) - (headerSize : Int)))
    else (⟨s, [], 0, 0⟩, .discarded)
  else (⟨s, [], 0, 0⟩, .discarded)

/-- Result codes of `UdpConn::recv` (negative error codes, a byte count, or
0 on wait timeout). -/
inductive RecvRes where
  | invalidState
  | nospace
  | connLost
  | timedOut
  | got (n : Int)
  | bug
deriving Repr, DecidableEq

/-- `UdpConn::recv(data, offset, len, timeout)` in the single-threaded model:
the state at the condition-variable wake equals the state at entry.
`copyOut` is `data != nullptr`. The entry check returns INVALID_STATE when
`sessId == 0`; a Pending slot (`!isInBufEmpty && !isInBufReceived`) yields
either NOSPACE (when `len < dataBufLen`) or the payload length, setting
`isInBufEmpty` (only when copying out) and `isInBufReceived`; otherwise the
wait times out and 0 is returned. -/
def recv (s : ConnState) (copyOut : Bool) (len : Nat) : RecvRes × ConnState :=
  if s.sessId = 0 then (.invalidState, s)
  else if !s.isInBufEmpty && !s.isInBufReceived then
    if (len : Int) < s.dataBufLen then (.nospace, s)
    else
      let s1 := if copyOut then { s with isInBufEmpty := true } else s
      (.got s.dataBufLen, { s1 with isInBufReceived := true })
  else (.timedOut, s)

/-- `UdpConn::releaseInternalBuffer`: set `isInBufEmpty = true`. -/
def releaseInternalBuffer (s : ConnState) : ConnState :=
  { s with isInBufEmpty := true }

/-- `UdpConn::getNextSendId(reset)`: reset sets `lastSendId = 0`, otherwise
`lastSendId++` with uint8 wraparound; returns the new value. -/
def getNextSendId (s : ConnState) (reset : Bool) : Nat × ConnState :=
  if reset then (0, { s with lastSendId := 0 })
  else
    let v := (s.lastSendId + 1) % 256
    (v, { s with lastSendId := v })

/-- Result codes of `UdpConn::send` / `sendBuffer` / `_sendInternal`. -/
inductive SendRes where
  | ok
  | timeout
  | connectionLost
  | invalidState
  | bug
deriving Repr, DecidableEq

/-- One observation of the retransmission loop of `UdpConn::_sendInternal`:
either the `TIME_WAIT_FOR_ACK` wait timed out, or the wait woke with the
predicate satisfied; in both cases the observation carries the values of
`lastSendAcked` and `sessId` at that moment (the I/O worker may have changed
them concurrently). -/
inductive WaitObs where
  | timedOut (acked sid : Nat)
  | woke (acked sid : Nat)
deriving Repr, DecidableEq

/-- The retransmission loop of `UdpConn::_sendInternal` for the in-flight id
`hid`, driven by one `WaitObs` per iteration; an empty trace means the outer
`timeout` budget is exhausted, upon which `_closeInternal` runs and TIMEOUT
is returned. Returns the result, the final state, and the number of
transmissions of `outBuf`. -/
def sendLoop (hid : Nat) (s : ConnState) : List WaitObs → SendRes × ConnState × Nat
  | [] =>
    let c := closeInternal s
    (.timeout, c.1, 0)
  | .timedOut a sid :: rest =>
    let s1 := { s with lastSendAcked := a, sessId := sid }
    let r := sendLoop hid s1 rest
    (r.1, r.2.1, r.2.2 + 1)
  | .woke a sid :: _ =>
    let s1 := { s with lastSendAcked := a, sessId := sid }
    if a = hid then (.ok, s1, 1)
    else if sid = 0 then (.connectionLost, s1, 1)
    else (.bug, s1, 1)

/-- `UdpConn::_sendInternal(len, timeout)`: assign `header->id =
getNextSendId()` and run the retransmission loop. The DATA header written
into `outBuf[0..4)` is `{sessId, id, flags = FLAG_DATA}`. -/
def sendInternal (s : ConnState) (obs : List WaitObs) : SendRes × ConnState × Nat :=
  let g := getNextSendId s false
  sendLoop g.1 g.2 obs

/-- Write `data` into `buf` starting at index `pos` (the effect of `memcpy`
into a fixed-size buffer, indices past `buf.length` ignored). -/
def writeBytes (buf : List Nat) (pos : Nat) : List Nat → List Nat
  | [] => buf
  | b :: rest => writeBytes (buf.set pos b) (pos + 1) rest

/-- `UdpConn::send(data, offset, len, timeout)`: INVALID_STATE when
`sessId == 0` at call time; otherwise `memcpy` the payload (when `data` is
non-null, modelled as `some payload` with `payload = data[offset..offset+len]`)
into `outBuf + sizeof(Header)` and call `_sendInternal`. -/
def send (s : ConnState) (payload : Option (List Nat)) (obs : List WaitObs) :
    SendRes × ConnState × Nat :=
  if s.sessId = 0 then (.invalidState, s, 0)
  else
    let s1 := match payload with
      | some d => { s with outBuf := writeBytes s.outBuf headerSize d }
      | none => s
    sendInternal s1 obs

/-- `UdpConn::sendBuffer(len, timeout)`: INVALID_STATE when `sessId == 0` at
call time; otherwise `_sendInternal` on the already-filled `outBuf`. -/
def sendBuffer (s : ConnState) (obs : List WaitObs) : SendRes × ConnState × Nat :=
  if s.sessId = 0 then (.invalidState, s, 0)
  else sendInternal s obs

/-- `UdpConn::tmr()` at time `now`: when connected, emit a PING if both
`now - lastPingSendTime >= PING_INTERVAL` and `now - lastPacketRecvTime >=
PING_INTERVAL` (uint64 subtraction), stamping `lastPingSendTime = now`; then
declare the peer dead (`_closeInternal`) if `now - lastPacketRecvTime >=
3000`. -/
def tmr (s : ConnState) (now : Nat) : Effects :=
  if s.sessId ≠ 0 then
    let p :=
      if cSub64 now s.lastPingSendTime ≥ PING_INTERVAL ∧
          cSub64 now s.lastPacketRecvTime ≥ PING_INTERVAL then
        ({ s with lastPingSendTime := now }, sendPing s)
      else (s, ([] : List Header))
    if cSub64 now p.1.lastPacketRecvTime ≥ 3000 then
      let c := closeInternal p.1
      ⟨c.1, p.2, c.2.1, c.2.2⟩
    else ⟨p.1, p.2, 0, 0⟩
  else ⟨s, [], 0, 0⟩

/-- Cursor state of `UdpConnSendSession`. -/
structure SendSession where
  pos : Nat
deriving Repr, DecidableEq

/-- `UdpConn::createSendSession`: a session with `pos = sizeof(Header)`. -/
def createSendSession : SendSession := ⟨headerSize⟩

/-- The loop of `UdpConnSendSession::write`: starting at cursor `pos`, copy
bytes of `src` (`src = data[offset..offset+len]`) into `buf` one at a time,
stopping when `pos >= MAX_PACKET_SIZE`; returns the new buffer, the new
cursor, and the count `i` of bytes written. -/
def writeLoop (buf : List Nat) (pos : Nat) : List Nat → List Nat × Nat × Nat
  | [] => (buf, pos, 0)
  | b :: rest =>
    if pos ≥ MAX_PACKET_SIZE then (buf, pos, 0)
    else
      let r := writeLoop (buf.set pos b) (pos + 1) rest
      (r.1, r.2.1, r.2.2 + 1)

/-- `UdpConnSendSession::write(data, offset, len, timeout)` acting on the
connection's `outBuf` and the session cursor. -/
def SendSession.write (ss : SendSession) (outBuf src : List Nat) :
    List Nat × SendSession × Nat :=
  let r := writeLoop outBuf ss.pos src
  (r.1, ⟨r.2.1⟩, r.2.2)

/-- Whether a wait observation is a `TIME_WAIT_FOR_ACK` timeout (the
retransmission loop saw neither a matching ACK nor a connection loss at this
iteration). -/
def WaitObs.isTimedOut : WaitObs → Bool
  | .timedOut _ _ => true
  | .woke _ _ => false

/-! ## Theorems -/

/-- C8: close is idempotent. For every session state, the second of two
successive `close` calls finds `sessId == 0`, changes nothing and notifies
nobody, so `close(); close()` is observationally equivalent to `close()`. -/
theorem close_idempotent (s : ConnState) :
    close (close s).1 = ((close s).1, 0, 0) ∧ (close s).1.sessId = 0 := by
  unfold close closeInternal
  by_cases h0 : s.sessId = 0 <;> simp [h0]

/-- C4: an inbound packet whose flags include RST tears the connection down
unconditionally, before and regardless of any `sessId` match: `sessId`
becomes 0 and both condition variables are notified when the connection was
open, nothing happens when it was already closed, and no other flag of the
packet is processed (no other field changes, nothing is emitted). -/
theorem processPacket_rst_teardown (s : ConnState) (h : Header) (pl : Int)
    (now : Nat) (hrst : hasFlag h FLAG_RST = true) :
    processPacket s h pl now =
      if s.sessId = 0 then ⟨s, [], 0, 0⟩
      else ⟨{ s with sessId := 0 }, [], 1, 1⟩ := by
  unfold processPacket closeInternal
  by_cases h0 : s.sessId = 0 <;> simp [hrst, h0]

/-- Witness for C4: an RST+ACK packet with a mismatching `sessId` still tears
down a connected endpoint, without touching `lastSendAcked`. -/
theorem processPacket_rst_teardown_witness :
    hasFlag ⟨9, 3, 18⟩ FLAG_RST = true ∧
    processPacket ⟨7, 1, 2, 3, 4, 5, true, true, 0, []⟩ ⟨9, 3, 18⟩ 0 6 =
      ⟨⟨0, 1, 2, 3, 4, 5, true, true, 0, []⟩, [], 1, 1⟩ := by
  refine ⟨by decide, ?_⟩
  rw [processPacket_rst_teardown ⟨7, 1, 2, 3, 4, 5, true, true, 0, []⟩
    ⟨9, 3, 18⟩ 0 6 (by decide)]
  decide

/-- C6: `send` (and `sendBuffer`) on a disconnected endpoint returns
INVALID_STATE, transmits nothing (0 transmissions), assigns no sequence
number and leaves the session state (including `lastSendId` and `outBuf`)
unchanged. -/
theorem send_disconnected_invalid (s : ConnState) (pl : Option (List Nat))
    (obs obs2 : List WaitObs) (h0 : s.sessId = 0) :
    send s pl obs = (.invalidState, s, 0) ∧
    sendBuffer s obs2 = (.invalidState, s, 0) := by
  unfold send sendBuffer
  simp [h0]

/-- Witness for C6: a disconnected endpoint rejects both `send` and
`sendBuffer` without any state change. -/
theorem send_disconnected_invalid_witness :
    send ⟨0, 3, 4, 5, 6, 7, true, true, 0, [1, 2]⟩ (some [9]) [] =
      (.invalidState, ⟨0, 3, 4, 5, 6, 7, true, true, 0, [1, 2]⟩, 0) ∧
    sendBuffer ⟨0, 3, 4, 5, 6, 7, true, true, 0, [1, 2]⟩ [.timedOut 1 2] =
      (.invalidState, ⟨0, 3, 4, 5, 6, 7, true, true, 0, [1, 2]⟩, 0) :=
  send_disconnected_invalid ⟨0, 3, 4, 5, 6, 7, true, true, 0, [1, 2]⟩
    (some [9]) [] [.timedOut 1 2] (by decide)

/-- C5: a `recv` that finds a Pending payload larger than the caller's
buffer returns NOSPACE and leaves the state entirely unchanged (slot still
Pending, same `dataBufLen`, same `lastReceivedId`); a retry with a large
enough buffer then returns `dataBufLen` and frees the slot. -/
theorem recv_nospace_preserves (s : ConnState) (c : Bool) (len len2 : Nat)
    (hconn : s.sessId ≠ 0) (he : s.isInBufEmpty = false)
    (hr : s.isInBufReceived = false) (hlt : (len : Int) < s.dataBufLen)
    (hge : s.dataBufLen ≤ (len2 : Int)) :
    recv s c len = (.nospace, s) ∧
    recv s true len2 =
      (.got s.dataBufLen,
       { s with isInBufEmpty := true, isInBufReceived := true }) := by
  unfold recv
  simp [hconn, he, hr, hlt, not_lt.mpr hge]

/-- Witness for C5: a 100-byte Pending payload against a 50-byte buffer
yields NOSPACE and an unchanged state; the retry with 100 bytes delivers. -/
theorem recv_nospace_preserves_witness :
    recv ⟨7, 0, 0, 1, 2, 3, false, false, 100, []⟩ false 50 =
      (.nospace, ⟨7, 0, 0, 1, 2, 3, false, false, 100, []⟩) ∧
    recv ⟨7, 0, 0, 1, 2, 3, false, false, 100, []⟩ true 100 =
      (.got 100, ⟨7, 0, 0, 1, 2, 3, true, true, 100, []⟩) :=
  recv_nospace_preserves ⟨7, 0, 0, 1, 2, 3, false, false, 100, []⟩ false 50 100
    (by decide) (by decide) (by decide) (by decide) (by decide)

/-- C10: in the worker loop, a datagram of exactly `sizeof(Header)` bytes is
always read and passed to `processPacket`, even while the receive slot is
occupied; any other datagram arriving while the slot is occupied is drained
and dropped with no processing and no state change. -/
theorem runStep_header_only_vs_occupied (s : ConnState) (h : Header)
    (L now now2 : Nat) (hL : L ≠ headerSize) (hocc : slotFree s = false) :
    runStep s h headerSize now = (processPacket s h 0 now, .processed 0) ∧
    runStep s h L now2 = (⟨s, [], 0, 0⟩, .discarded) := by
  have hocc2 : (s.isInBufEmpty && s.isInBufReceived) = false := hocc
  unfold runStep
  constructor
  · simp
  · simp [hL, hocc2]

/-- Witness for C10: with a Delivered (occupied) slot, a 4-byte RST datagram
is still processed while a 10-byte datagram is dropped unprocessed. -/
theorem runStep_header_only_vs_occupied_witness :
    runStep ⟨7, 0, 0, 0, 0, 0, false, true, 3, []⟩ ⟨7, 1, 16⟩ 4 8 =
      (processPacket ⟨7, 0, 0, 0, 0, 0, false, true, 3, []⟩ ⟨7, 1, 16⟩ 0 8,
       .processed 0) ∧
    runStep ⟨7, 0, 0, 0, 0, 0, false, true, 3, []⟩ ⟨7, 1, 16⟩ 10 8 =
      (⟨⟨7, 0, 0, 0, 0, 0, false, true, 3, []⟩, [], 0, 0⟩, .discarded) :=
  runStep_header_only_vs_occupied ⟨7, 0, 0, 0, 0, 0, false, true, 3, []⟩
    ⟨7, 1, 16⟩ 10 8 8 (by decide) (by decide)

/-- C2 counterexample: a connected endpoint with an occupied (Pending)
receive slot receives an in-order DATA datagram (`diff = 1`) with a 5-byte
payload on the matching session; the worker loop drains and discards it and
emits NO ACK (the claim asserts an ACK of `lastReceivedId` is still sent). -/
theorem runStep_fullbuffer_noack_cex :
    cSub8 1 0 = 1 ∧
    slotFree ⟨7, 0, 0, 0, 0, 0, false, false, 3, []⟩ = false ∧
    runStep ⟨7, 0, 0, 0, 0, 0, false, false, 3, []⟩ ⟨7, 1, FLAG_DATA⟩ 9 5 =
      (⟨⟨7, 0, 0, 0, 0, 0, false, false, 3, []⟩, [], 0, 0⟩, .discarded) := by
  decide

/-- C2 amended: an in-order DATA datagram with non-empty payload arriving
while the receive slot is occupied is discarded with NO ACK and no state
change at all; the peer recovers by retransmitting until a `recv` frees the
slot. -/
theorem runStep_fullbuffer_discard (s : ConnState) (h : Header) (L now : Nat)
    (_hconn : s.sessId ≠ 0) (_hsess : h.sessId = s.sessId)
    (_hdata : hasFlag h FLAG_DATA = true)
    (_hord : cSub8 h.id s.lastReceivedId = 1)
    (hL : headerSize < L) (hocc : slotFree s = false) :
    runStep s h L now = (⟨s, [], 0, 0⟩, .discarded) := by
  have hocc2 : (s.isInBufEmpty && s.isInBufReceived) = false := hocc
  have hne : L ≠ headerSize := by omega
  unfold runStep
  simp [hne, hocc2]

/-- Witness for C2's amended statement: the same scenario as the
counterexample, via the amended theorem. -/
theorem runStep_fullbuffer_discard_witness :
    runStep ⟨7, 0, 0, 0, 0, 0, false, false, 3, []⟩ ⟨7, 1, FLAG_DATA⟩ 9 5 =
      (⟨⟨7, 0, 0, 0, 0, 0, false, false, 3, []⟩, [], 0, 0⟩, .discarded) :=
  runStep_fullbuffer_discard ⟨7, 0, 0, 0, 0, 0, false, false, 3, []⟩
    ⟨7, 1, FLAG_DATA⟩ 9 5 (by decide) (by decide) (by decide) (by decide)
    (by decide) (by decide)

/-- An exhausted retransmission loop (every iteration's wait timed out, i.e.
no matching ACK and no connection loss was ever observed) returns TIMEOUT,
closes the connection via `_closeInternal`, and transmitted once per
iteration. -/
theorem sendLoop_all_timedOut (hid : Nat) (obs : List WaitObs) :
    ∀ s : ConnState, (∀ o ∈ obs, o.isTimedOut = true) →
    (sendLoop hid s obs).1 = .timeout ∧ (sendLoop hid s obs).2.1.sessId = 0 ∧
    (sendLoop hid s obs).2.2 = obs.length := by
  induction obs with
  | nil =>
    intro s _
    unfold sendLoop closeInternal
    by_cases h0 : s.sessId = 0 <;> simp [h0]
  | cons o rest ih =>
    intro s hall
    cases o with
    | timedOut a sid =>
      have h1 := ih { s with lastSendAcked := a, sessId := sid }
        (fun o ho => hall o (List.mem_cons_of_mem _ ho))
      unfold sendLoop
      simpa using h1
    | woke a sid =>
      have h2 := hall _ (List.mem_cons_self _ _)
      simp [WaitObs.isTimedOut] at h2

/-- C3: a `send` (or `sendBuffer`) whose retransmission loop exhausts the
caller's timeout without ever observing a matching ACK or a connection loss
returns TIMEOUT and leaves the connection closed (`sessId == 0`), so a
subsequent `send` or `sendBuffer` returns INVALID_STATE. -/
theorem send_timeout_closes (s : ConnState) (pl pl2 : Option (List Nat))
    (obs obs2 : List WaitObs) (hconn : s.sessId ≠ 0)
    (hobs : ∀ o ∈ obs, o.isTimedOut = true) :
    (send s pl obs).1 = .timeout ∧ (send s pl obs).2.1.sessId = 0 ∧
    (sendBuffer s obs).1 = .timeout ∧ (sendBuffer s obs).2.1.sessId = 0 ∧
    (send (send s pl obs).2.1 pl2 obs2).1 = .invalidState ∧
    (sendBuffer (sendBuffer s obs).2.1 obs2).1 = .invalidState := by
  have key : ∀ s' : ConnState, (sendInternal s' obs).1 = .timeout ∧
      (sendInternal s' obs).2.1.sessId = 0 := by
    intro s'
    have h1 := sendLoop_all_timedOut (getNextSendId s' false).1 obs
      (getNextSendId s' false).2 hobs
    exact ⟨h1.1, h1.2.1⟩
  have hsend : (send s pl obs).1 = .timeout ∧ (send s pl obs).2.1.sessId = 0 := by
    unfold send
    cases pl <;> simp [hconn] <;> exact key _
  have hsb : (sendBuffer s obs).1 = .timeout ∧
      (sendBuffer s obs).2.1.sessId = 0 := by
    unfold sendBuffer
    simp [hconn]
    exact key s
  have hinv : ∀ t : ConnState, t.sessId = 0 →
      (send t pl2 obs2).1 = .invalidState ∧
      (sendBuffer t obs2).1 = .invalidState := by
    intro t ht
    unfold send sendBuffer
    simp [ht]
  exact ⟨hsend.1, hsend.2, hsb.1, hsb.2, (hinv _ hsend.2).1, (hinv _ hsb.2).2⟩

/-- Witness for C3: two timed-out retransmission rounds on a connected
endpoint end in TIMEOUT with the session closed, and the next send is
rejected. -/
theorem send_timeout_closes_witness :
    (send ⟨7, 0, 0, 0, 0, 0, true, true, 0, []⟩ (some [1, 2])
      [.timedOut 5 7, .timedOut 5 7]).1 = .timeout ∧
    (send ⟨7, 0, 0, 0, 0, 0, true, true, 0, []⟩ (some [1, 2])
      [.timedOut 5 7, .timedOut 5 7]).2.1.sessId = 0 ∧
    (sendBuffer ⟨7, 0, 0, 0, 0, 0, true, true, 0, []⟩
      [.timedOut 5 7, .timedOut 5 7]).1 = .timeout ∧
    (sendBuffer ⟨7, 0, 0, 0, 0, 0, true, true, 0, []⟩
      [.timedOut 5 7, .timedOut 5 7]).2.1.sessId = 0 ∧
    (send (send ⟨7, 0, 0, 0, 0, 0, true, true, 0, []⟩ (some [1, 2])
      [.timedOut 5 7, .timedOut 5 7]).2.1 none []).1 = .invalidState ∧
    (sendBuffer (sendBuffer ⟨7, 0, 0, 0, 0, 0, true, true, 0, []⟩
      [.timedOut 5 7, .timedOut 5 7]).2.1 []).1 = .invalidState :=
  send_timeout_closes ⟨7, 0, 0, 0, 0, 0, true, true, 0, []⟩ (some [1, 2]) none
    [.timedOut 5 7, .timedOut 5 7] [] (by decide) (by decide)

/-- C1: for a DATA packet handed to `processPacket` while connected and on
the matching session (carrying only the DATA flag; the worker loop
guarantees that a packet with non-empty payload only reaches `processPacket`
while the receive slot is free, which is the last hypothesis), letting
`diff = (packet.id - lastReceivedId) mod 256`: the payload is accepted
(slot made Pending with `lastReceivedId = packet.id`, `dataBufLen` set,
`recvCV` notified once) iff `diff = 1`, the payload is non-empty and the
slot is free; on acceptance the new state and the ACK are exactly as below;
when not accepted only `lastPacketRecvTime` changes and an ACK carrying the
unchanged `lastReceivedId` is emitted. The modular `diff` makes this hold
across the 255 → 0 wraparound. -/
theorem processPacket_data_inorder (s : ConnState) (h : Header) (pl : Int)
    (now : Nat) (hconn : s.sessId ≠ 0) (hsess : h.sessId = s.sessId)
    (hdata : hasFlag h FLAG_DATA = true) (hrst : hasFlag h FLAG_RST = false)
    (hsynack : hasFlag h FLAG_SYNACK = false)
    (hping : hasFlag h FLAG_PING = false) (hack : hasFlag h FLAG_ACK = false)
    (hslot : 0 < pl → slotFree s = true) :
    ((processPacket s h pl now).recvNotifs = 1 ↔
      cSub8 h.id s.lastReceivedId = 1 ∧ 0 < pl ∧ slotFree s = true) ∧
    (cSub8 h.id s.lastReceivedId = 1 ∧ 0 < pl →
      processPacket s h pl now =
        ⟨{ s with
            lastReceivedId := h.id,
            dataBufLen := pl,
            isInBufEmpty := false,
            isInBufReceived := false,
            lastPacketRecvTime := now },
         [⟨s.sessId, h.id, FLAG_ACK⟩], 1, 0⟩) ∧
    (¬(cSub8 h.id s.lastReceivedId = 1 ∧ 0 < pl) →
      processPacket s h pl now =
        ⟨{ s with lastPacketRecvTime := now },
         [⟨s.sessId, s.lastReceivedId, FLAG_ACK⟩], 0, 0⟩) := by
  unfold processPacket ackHeader
  by_cases hd : cSub8 h.id s.lastReceivedId = 1 <;>
    by_cases hp : 0 < pl <;>
    simp [hconn, hsess, hdata, hrst, hsynack, hping, hack, hd, hp]
  exact hslot hp

/-- Witness for C1, at the 255 → 0 wraparound: an in-order DATA packet with
id 0 following `lastReceivedId = 255` is accepted into a free slot and ACKed
with the new id. -/
theorem processPacket_data_inorder_witness :
    cSub8 0 255 = 1 ∧
    processPacket ⟨7, 0, 0, 255, 10, 10, true, true, 0, []⟩ ⟨7, 0, 1⟩ 5 99 =
      ⟨⟨7, 0, 0, 0, 99, 10, false, false, 5, []⟩, [⟨7, 0, FLAG_ACK⟩], 1, 0⟩ := by
  refine ⟨by decide, ?_⟩
  have h1 := (processPacket_data_inorder ⟨7, 0, 0, 255, 10, 10, true, true, 0, []⟩
    ⟨7, 0, 1⟩ 5 99 (by decide) (by decide) (by decide) (by decide) (by decide)
    (by decide) (by decide) (fun _ => by decide)).2.1 ⟨by decide, by decide⟩
  exact h1

/-- C7: on a timer tick while connected, a PING is emitted iff both
`now - lastPingSendTime >= PING_INTERVAL` and `now - lastPacketRecvTime >=
PING_INTERVAL` (uint64 subtraction) hold; the emitted packet is header-only
with `id = 0`, `flags = PING` and the current `sessId`, and
`lastPingSendTime` is then set to `now`. -/
theorem tmr_ping_iff (s : ConnState) (now : Nat) (hconn : s.sessId ≠ 0) :
    ((tmr s now).sent = [⟨s.sessId, 0, FLAG_PING⟩] ↔
      PING_INTERVAL ≤ cSub64 now s.lastPingSendTime ∧
      PING_INTERVAL ≤ cSub64 now s.lastPacketRecvTime) ∧
    (¬(PING_INTERVAL ≤ cSub64 now s.lastPingSendTime ∧
       PING_INTERVAL ≤ cSub64 now s.lastPacketRecvTime) →
      (tmr s now).sent = []) ∧
    ((PING_INTERVAL ≤ cSub64 now s.lastPingSendTime ∧
      PING_INTERVAL ≤ cSub64 now s.lastPacketRecvTime) →
      (tmr s now).state.lastPingSendTime = now) := by
  unfold tmr sendPing
  by_cases hc : (PING_INTERVAL ≤ cSub64 now s.lastPingSendTime ∧
      PING_INTERVAL ≤ cSub64 now s.lastPacketRecvTime) <;>
    by_cases hdead : 3000 ≤ cSub64 now s.lastPacketRecvTime <;>
    simp [hconn, hc, hdead, closeInternal]

/-- Witness for C7: with both intervals elapsed (1000 ms of silence), the
tick emits exactly one PING `{sessId = 7, id = 0, flags = PING}` and stamps
`lastPingSendTime`. -/
theorem tmr_ping_iff_witness :
    (tmr ⟨7, 1, 2, 3, 0, 0, true, true, 0, []⟩ 1000).sent =
      [⟨7, 0, FLAG_PING⟩] ∧
    (tmr ⟨7, 1, 2, 3, 0, 0, true, true, 0, []⟩ 1000).state.lastPingSendTime =
      1000 :=
  ⟨((tmr_ping_iff ⟨7, 1, 2, 3, 0, 0, true, true, 0, []⟩ 1000 (by decide)).1).mpr
    ⟨by decide, by decide⟩,
   ((tmr_ping_iff ⟨7, 1, 2, 3, 0, 0, true, true, 0, []⟩ 1000 (by decide)).2.2)
    ⟨by decide, by decide⟩⟩

/-- One step of `UdpConnSendSession::write`'s copy loop unpacked as a splice:
taking the first `pos + 1` elements after a `set` at `pos` appends the new
byte to the unchanged prefix. -/
theorem take_set_succ (buf : List Nat) (pos : Nat) (b : Nat)
    (h : pos < buf.length) :
    (buf.set pos b).take (pos + 1) = buf.take pos ++ [b] := by
  rw [List.set_eq_take_cons_drop _ h]
  rw [List.take_append_eq_append_take]
  simp [List.length_take, Nat.le_of_lt h, List.take_of_length_le]

/-- The copy loop of `UdpConnSendSession::write` on a 1200-byte buffer
copies exactly `min src.length (1200 - pos)` bytes of `src` into the buffer
at `pos`, advances the cursor by that count and returns it. -/
theorem writeLoop_spec (src : List Nat) : ∀ (buf : List Nat) (pos : Nat),
    buf.length = 1200 →
    writeLoop buf pos src =
      (buf.take pos ++ src.take (min src.length (1200 - pos)) ++
         buf.drop (pos + min src.length (1200 - pos)),
       pos + min src.length (1200 - pos),
       min src.length (1200 - pos)) := by
  induction src with
  | nil =>
    intro buf pos hlen
    simp [writeLoop]
  | cons b rest ih =>
    intro buf pos hlen
    unfold writeLoop
    by_cases hp : pos ≥ MAX_PACKET_SIZE
    · have hp1200 : pos ≥ 1200 := hp
      have h0 : 1200 - pos = 0 := Nat.sub_eq_zero_of_le hp1200
      simp [hp, h0]
    · have hp1200 : pos < 1200 := by
        simpa [MAX_PACKET_SIZE] using not_le.mp hp
      have hlt : pos < buf.length := by omega
      have hrec := ih (buf.set pos b) (pos + 1) (by simp [hlen])
      have hmin : min ((b :: rest).length) (1200 - pos) =
          min rest.length (1200 - (pos + 1)) + 1 := by
        simp only [List.length_cons]
        omega
      have hadd : pos + (min rest.length (1200 - (pos + 1)) + 1) =
          pos + 1 + min rest.length (1200 - (pos + 1)) := by omega
      simp only [hp, if_false]
      rw [hrec, hmin, hadd]
      dsimp only
      rw [take_set_succ _ _ _ hlt]
      rw [List.drop_set_of_lt _ _ (by omega)]
      simp [List.append_assoc]

/-- C9: `UdpConnSendSession::write` starting at cursor `pos` copies exactly
`min len (MAX_PACKET_SIZE - pos)` bytes of the source into `outBuf` at
`pos`, advances the cursor by that count and returns it; in particular a
write at `pos = MAX_PACKET_SIZE` returns 0 and changes nothing. -/
theorem sendSession_write_copies (buf src : List Nat) (pos : Nat)
    (hlen : buf.length = MAX_PACKET_SIZE) :
    SendSession.write ⟨pos⟩ buf src =
      (buf.take pos ++ src.take (min src.length (MAX_PACKET_SIZE - pos)) ++
         buf.drop (pos + min src.length (MAX_PACKET_SIZE - pos)),
       ⟨pos + min src.length (MAX_PACKET_SIZE - pos)⟩,
       min src.length (MAX_PACKET_SIZE - pos)) ∧
    SendSession.write ⟨MAX_PACKET_SIZE⟩ buf src = (buf, ⟨MAX_PACKET_SIZE⟩, 0) := by
  have hlen1200 : buf.length = 1200 := hlen
  constructor
  · unfold SendSession.write
    rw [writeLoop_spec src buf pos hlen1200]
    rfl
  · unfold SendSession.write
    rw [writeLoop_spec src buf MAX_PACKET_SIZE hlen1200]
    have h0 : (1200 : Nat) - MAX_PACKET_SIZE = 0 := by
      simp [MAX_PACKET_SIZE]
    simp [h0, List.take_of_length_le, hlen1200, Nat.le_of_eq hlen1200.symm]

/-- Witness for C9: writing 3 bytes at cursor 1198 of a 1200-byte buffer
copies exactly 2 of them and reports 2. -/
theorem sendSession_write_copies_witness :
    (List.replicate 1200 (0 : Nat)).length = MAX_PACKET_SIZE ∧
    SendSession.write ⟨1198⟩ (List.replicate 1200 (0 : Nat)) [5, 6, 7] =
      ((List.replicate 1200 (0 : Nat)).take 1198 ++
         [5, 6, 7].take (min ([5, 6, 7] : List Nat).length
           (MAX_PACKET_SIZE - 1198)) ++
         (List.replicate 1200 (0 : Nat)).drop
           (1198 + min ([5, 6, 7] : List Nat).length (MAX_PACKET_SIZE - 1198)),
       ⟨1198 + min ([5, 6, 7] : List Nat).length (MAX_PACKET_SIZE - 1198)⟩,
       min ([5, 6, 7] : List Nat).length (MAX_PACKET_SIZE - 1198)) :=
  ⟨by rw [List.length_replicate]; rfl,
   (sendSession_write_copies (List.replicate 1200 (0 : Nat)) [5, 6, 7] 1198
     (by rw [List.length_replicate]; rfl)).1⟩

end UdpConn
